import Mathlib

/-!
Shallow embedding of the `pocket-ai-dev` architecture examples:
  - layered_architecture_example.py  (Order aggregate, repository)
  - cqrs_pattern_example.py          (command handler, query service, projection)
  - hexagonal_architecture_example.py (OrderService.process_order)
  - metrics_collector.py             (PerformanceMonitor.should_alert)
Python `Decimal`/`float` amounts are embedded as exact rationals (ℚ);
UUIDs, timestamps and product ids are embedded as natural numbers.
-/

/-- Money value object used by the examples. Its implementation is not in
the repository sources; it is embedded with the plain numeric semantics the
call sites rely on: `add` sums the amounts, `multiply` scales the amount. -/
structure Money where
  amount : ℚ
  currency : String
deriving DecidableEq, Repr

def Money.add (m n : Money) : Money :=
  { amount := m.amount + n.amount, currency := m.currency }

def Money.multiply (m : Money) (k : ℚ) : Money :=
  { amount := m.amount * k, currency := m.currency }

/-- Order line item (layered_architecture_example.py). `quantity` is an
integer because the Python code never restricts it to be positive. -/
structure OrderItem where
  product_id : Nat
  quantity : Int
  unit_price : Money
deriving DecidableEq, Repr

inductive OrderStatus where
  | created
  | confirmed
  | cancelled
deriving DecidableEq, Repr

/-- The exception raised by `Order.add_item` (class `OrderError` in
layered_architecture_example.py). -/
inductive OrderError where
  | orderError (msg : String)
deriving DecidableEq, Repr

def addItemErrMsg : String := "確定済みの注文には商品を追加できません"

/-- Order aggregate state (layered_architecture_example.py, class `Order`). -/
structure Order where
  id : Nat
  customer_id : Nat
  status : OrderStatus
  items : List OrderItem
  total_amount : Money
deriving DecidableEq, Repr

def currJPY : String := "JPY"

/-- Embeds `Order.__init__`: fresh order with status CREATED, no items,
total `Money(Decimal("0"), "JPY")`. -/
def mkOrder (id customer_id : Nat) : Order :=
  { id := id
    customer_id := customer_id
    status := OrderStatus.created
    items := []
    total_amount := { amount := 0, currency := currJPY } }

/-- Embeds `Order.add_item`: raises `OrderError` unless status is CREATED,
otherwise appends the item and adds `unit_price × quantity` to the total. -/
def Order.add_item (o : Order) (item : OrderItem) : Except OrderError Order :=
  if o.status ≠ OrderStatus.created then
    Except.error (OrderError.orderError addItemErrMsg)
  else
    Except.ok
      { o with
        items := o.items ++ [item]
        total_amount := o.total_amount.add
          (item.unit_price.multiply (item.quantity : ℚ)) }

/-- Embeds `Order.create`: builds a fresh order (the generated uuid4 is passed in
as `id`) and calls `add_item` for each given item, in order. Any exception
raised by `add_item` propagates. -/
def Order.create (id customer_id : Nat) (items : List OrderItem) :
    Except OrderError Order :=
  items.foldlM (fun o item => o.add_item item) (mkOrder id customer_id)

/-- Sum of `unit_price.amount × quantity` over a list of items. -/
def sumAmount (items : List OrderItem) : ℚ :=
  (items.map fun i => i.unit_price.amount * (i.quantity : ℚ)).sum

/- ===== metrics_collector.py ===== -/

/-- Endpoint metrics record (`EndpointMetrics` dataclass); the float fields
are embedded as exact rationals. -/
structure EndpointMetrics where
  response_time : ℚ
  error_rate : ℚ
  throughput : ℚ
  timestamp : Nat
deriving DecidableEq, Repr

/-- Thresholds fixed by `PerformanceMonitor.__init__`. -/
structure Thresholds where
  response_time : ℚ
  error_rate : ℚ
  throughput : ℚ
deriving DecidableEq, Repr

def PerformanceMonitor.thresholds : Thresholds :=
  { response_time := 300, error_rate := 1, throughput := 100 }

/-- Embeds `PerformanceMonitor.should_alert`. -/
def PerformanceMonitor.should_alert (m : EndpointMetrics) : Bool :=
  decide (m.response_time > PerformanceMonitor.thresholds.response_time) ||
  decide (m.error_rate > PerformanceMonitor.thresholds.error_rate) ||
  decide (m.throughput < PerformanceMonitor.thresholds.throughput)

/-- Claim C10: `should_alert` is true exactly when `response_time > 300`
or `error_rate > 1.0` or `throughput < 100`. -/
theorem should_alert_iff (m : EndpointMetrics) :
    PerformanceMonitor.should_alert m = true ↔
      (m.response_time > 300 ∨ m.error_rate > 1 ∨ m.throughput < 100) := by
  simp [PerformanceMonitor.should_alert, PerformanceMonitor.thresholds, or_assoc]

/- ===== Order lemmas ===== -/

theorem add_item_ok (o : Order) (item : OrderItem)
    (h : o.status = OrderStatus.created) :
    o.add_item item = Except.ok
      { o with
        items := o.items ++ [item]
        total_amount := { amount := o.total_amount.amount +
                            item.unit_price.amount * (item.quantity : ℚ)
                          currency := o.total_amount.currency } } := by
  simp [Order.add_item, h, Money.add, Money.multiply]

theorem add_item_err (o : Order) (item : OrderItem)
    (h : o.status ≠ OrderStatus.created) :
    o.add_item item = Except.error (OrderError.orderError addItemErrMsg) := by
  simp [Order.add_item, h]

theorem exceptOkBind {ε α β : Type} (a : α) (f : α → Except ε β) :
    (Except.ok a : Except ε α) >>= f = f a := rfl

theorem foldl_add_item_ok (items : List OrderItem) (o : Order)
    (h : o.status = OrderStatus.created) :
    List.foldlM (fun a i => Order.add_item a i) o items =
      Except.ok { o with
        items := o.items ++ items
        total_amount := { amount := o.total_amount.amount + sumAmount items
                          currency := o.total_amount.currency } } := by
  induction items generalizing o with
  | nil =>
      simp [List.foldlM, sumAmount]
      rfl
  | cons i is ih =>
      rw [List.foldlM_cons, add_item_ok o i h, exceptOkBind, ih]
      · simp [sumAmount, List.append_assoc, add_assoc]
      · exact h

/-- Evaluation of `Order.create`: it never raises, whatever the items. -/
theorem create_eval (id customer_id : Nat) (items : List OrderItem) :
    Order.create id customer_id items =
      Except.ok { id := id
                  customer_id := customer_id
                  status := OrderStatus.created
                  items := items
                  total_amount := { amount := sumAmount items
                                    currency := currJPY } } := by
  rw [Order.create, foldl_add_item_ok items (mkOrder id customer_id) rfl]
  simp [mkOrder]

def itemZeroQty : OrderItem :=
  { product_id := 1, quantity := 0
    unit_price := { amount := 5, currency := currJPY } }

def itemNegPrice : OrderItem :=
  { product_id := 2, quantity := 1
    unit_price := { amount := -3, currency := currJPY } }

/-- Claim C2 counterexample: `Order.create` raises no ValidationError on an
empty items list, a zero quantity, or a negative unit price — in all three
cases it succeeds and the order's status is Created. -/
theorem create_no_validation_cex :
    ((Order.create 0 0 []).toOption.map Order.status
        = some OrderStatus.created) ∧
    ((Order.create 0 0 [itemZeroQty]).toOption.map Order.status
        = some OrderStatus.created) ∧
    ((Order.create 0 0 [itemNegPrice]).toOption.map Order.status
        = some OrderStatus.created) := by
  refine ⟨?_, ?_, ?_⟩ <;> rw [create_eval] <;> rfl

/-- Claim C2 (amended): `Order.create` performs no input validation — for
every customerId and items list (empty, non-positive quantities or negative
prices included) it succeeds, and the resulting order has status Created,
exactly the given items, and total amount Σ quantity × unitPrice. -/
theorem create_always_created (id customer_id : Nat) (items : List OrderItem) :
    Order.create id customer_id items =
      Except.ok { id := id
                  customer_id := customer_id
                  status := OrderStatus.created
                  items := items
                  total_amount := { amount := sumAmount items
                                    currency := currJPY } } :=
  create_eval id customer_id items

/-- Orders reachable through the public operations: a successful `create`
followed by any number of successful `add_item` calls. -/
inductive Reachable : Order → Prop where
  | create (id customer_id : Nat) (items : List OrderItem) (o : Order) :
      Order.create id customer_id items = Except.ok o → Reachable o
  | add (o : Order) (item : OrderItem) (o' : Order) :
      Reachable o → o.add_item item = Except.ok o' → Reachable o'

/-- Claim C3: every order reachable through `create` and successful
`add_item` calls satisfies totalAmount = Σ quantity × unitPrice over its
items; in particular, after `create` the total equals that sum over the
given items. -/
theorem totalAmount_invariant :
    (∀ o : Order, Reachable o → o.total_amount.amount = sumAmount o.items) ∧
    (∀ (id customer_id : Nat) (items : List OrderItem) (o : Order),
      Order.create id customer_id items = Except.ok o →
      o.total_amount.amount = sumAmount items) := by
  have hadd : ∀ (o : Order) (item : OrderItem) (o' : Order),
      o.total_amount.amount = sumAmount o.items →
      o.add_item item = Except.ok o' →
      o'.total_amount.amount = sumAmount o'.items := by
    intro o item o' hinv hok
    by_cases hst : o.status = OrderStatus.created
    · rw [add_item_ok o item hst] at hok
      cases hok
      simp [sumAmount, hinv, Money.add, Money.multiply]
    · rw [add_item_err o item hst] at hok
      cases hok
  constructor
  · intro o hr
    induction hr with
    | create id cid items o hc =>
        rw [create_eval] at hc
        cases hc
        rfl
    | add o item o' _hr hok ih =>
        exact hadd o item o' ih hok
  · intro id cid items o hc
    rw [create_eval] at hc
    cases hc
    rfl

def itemW : OrderItem :=
  { product_id := 1, quantity := 2
    unit_price := { amount := 10, currency := currJPY } }

def orderW : Order :=
  { id := 0, customer_id := 0, status := OrderStatus.created
    items := [itemW]
    total_amount := { amount := 20, currency := currJPY } }

theorem totalAmount_invariant_witness :
    orderW.total_amount.amount = sumAmount orderW.items :=
  totalAmount_invariant.1 orderW
    (Reachable.create 0 0 [itemW] orderW
      (by rw [create_eval]; simp [orderW, itemW, sumAmount]; norm_num))

/-- Claim C4: `add_item` on an order whose status is not Created fails with
the `OrderError` and produces no updated order (the caller's order value is
untouched); on a Created order it appends the item and adds
unitPrice × quantity to the total. -/
theorem add_item_spec (o : Order) (item : OrderItem) :
    (o.status ≠ OrderStatus.created →
      o.add_item item = Except.error (OrderError.orderError addItemErrMsg)) ∧
    (o.status = OrderStatus.created →
      o.add_item item = Except.ok
        { o with
          items := o.items ++ [item]
          total_amount := { amount := o.total_amount.amount +
                              item.unit_price.amount * (item.quantity : ℚ)
                            currency := o.total_amount.currency } }) :=
  ⟨add_item_err o item, add_item_ok o item⟩

def orderConfirmedW : Order :=
  { orderW with status := OrderStatus.confirmed }

theorem add_item_spec_witness :
    orderConfirmedW.add_item itemW
        = Except.error (OrderError.orderError addItemErrMsg) ∧
    orderW.add_item itemW = Except.ok
      { orderW with
        items := orderW.items ++ [itemW]
        total_amount := { amount := orderW.total_amount.amount +
                            itemW.unit_price.amount * (itemW.quantity : ℚ)
                          currency := orderW.total_amount.currency } } :=
  ⟨(add_item_spec orderConfirmedW itemW).1 (by decide),
   (add_item_spec orderW itemW).2 (by decide)⟩

instance {ε α : Type} [DecidableEq ε] [DecidableEq α] :
    DecidableEq (Except ε α) := fun a b =>
  match a, b with
  | Except.error e, Except.error f => decidable_of_iff (e = f) (by simp)
  | Except.error _, Except.ok _ => isFalse (fun hc => Except.noConfusion hc)
  | Except.ok _, Except.error _ => isFalse (fun hc => Except.noConfusion hc)
  | Except.ok x, Except.ok y => decidable_of_iff (x = y) (by simp)

/- ===== cqrs_pattern_example.py: read model, projection, query ===== -/

/-- A row of the `order_summary` table. -/
structure OrderSummaryRow where
  customer_id : Nat
  total_amount : ℚ
  currency : String
  status : String
  created_at : Nat
  updated_at : Option Nat
deriving DecidableEq, Repr

/-- The `order_summary` table, keyed by order id (its primary key:
one row per aggregate). -/
abbrev ReadDb : Type := List (Nat × OrderSummaryRow)

/-- Embeds `OrderCreatedEvent` as used by the projection: it carries order id,
customer id, a Money total and a timestamp (no sequence number field). -/
structure OrderCreatedEvent where
  order_id : Nat
  customer_id : Nat
  total_amount : Money
  timestamp : Nat
deriving DecidableEq, Repr

/-- Embeds `OrderConfirmedEvent` as used by the projection. -/
structure OrderConfirmedEvent where
  order_id : Nat
  timestamp : Nat
deriving DecidableEq, Repr

/-- SQL error raised by an INSERT that violates the primary key. -/
inductive DbError where
  | duplicateKey
deriving DecidableEq, Repr

def statusCreatedStr : String := "created"

def statusConfirmedStr : String := "confirmed"

/-- Embeds `OrderSummaryProjection.handle_order_created`: a plain
`INSERT INTO order_summary` with no duplicate check of its own; inserting a
second row for the same primary key fails with a duplicate-key error. -/
def OrderSummaryProjection.handle_order_created (db : ReadDb)
    (e : OrderCreatedEvent) : Except DbError ReadDb :=
  if (db.lookup e.order_id).isSome then
    Except.error DbError.duplicateKey
  else
    Except.ok ((e.order_id,
      { customer_id := e.customer_id
        total_amount := e.total_amount.amount
        currency := e.total_amount.currency
        status := statusCreatedStr
        created_at := e.timestamp
        updated_at := none }) :: db)

/-- Embeds `OrderSummaryProjection.handle_order_confirmed`: an
`UPDATE order_summary SET status, updated_at WHERE id = :id`; rows with a
different id are untouched, and a missing row makes it a no-op. -/
def OrderSummaryProjection.handle_order_confirmed (db : ReadDb)
    (e : OrderConfirmedEvent) : ReadDb :=
  db.map fun kr =>
    if kr.1 = e.order_id then
      (kr.1, { kr.2 with
        status := statusConfirmedStr
        updated_at := some e.timestamp })
    else kr

def evtCreatedW : OrderCreatedEvent :=
  { order_id := 7, customer_id := 1
    total_amount := { amount := 20, currency := currJPY }, timestamp := 3 }

/-- Claim C6 counterexample: the projection holds no
`lastAppliedSequence` watermark and applying the same `OrderCreated` event
twice is not an ignored no-op — the second application fails with a
duplicate-key error instead of yielding the same row as one application. -/
theorem projection_not_idempotent_cex :
    (OrderSummaryProjection.handle_order_created [] evtCreatedW).bind
        (fun db1 => OrderSummaryProjection.handle_order_created db1 evtCreatedW)
      = Except.error DbError.duplicateKey := by decide

/-- Claim C6 (amended): the projection performs no sequence-number
deduplication (rows carry no `lastAppliedSequence`). Its `UPDATE` handler is
idempotent — re-applying the same `OrderConfirmed` event yields the same
table — but its `INSERT` handler is an unguarded insert: re-applying the
same `OrderCreated` event fails with a duplicate-key error instead of being
ignored. -/
theorem projection_idempotence_spec :
    (∀ (db : ReadDb) (e : OrderConfirmedEvent),
      OrderSummaryProjection.handle_order_confirmed
        (OrderSummaryProjection.handle_order_confirmed db e) e =
      OrderSummaryProjection.handle_order_confirmed db e) ∧
    (∀ (db db1 : ReadDb) (e : OrderCreatedEvent),
      OrderSummaryProjection.handle_order_created db e = Except.ok db1 →
      OrderSummaryProjection.handle_order_created db1 e =
        Except.error DbError.duplicateKey) := by
  constructor
  · intro db e
    induction db with
    | nil => rfl
    | cons kr rest ih =>
        by_cases h : kr.1 = e.order_id <;>
          simp [OrderSummaryProjection.handle_order_confirmed, h] at ih ⊢ <;>
          exact ih
  · intro db db1 e hok
    rw [OrderSummaryProjection.handle_order_created] at hok
    by_cases h : (db.lookup e.order_id).isSome
    · simp [h] at hok
    · simp [h] at hok
      rw [OrderSummaryProjection.handle_order_created, ← hok]
      simp [List.lookup]

def dbRowW : OrderSummaryRow :=
  { customer_id := 1, total_amount := 20, currency := currJPY
    status := statusCreatedStr, created_at := 3, updated_at := none }

def evtConfirmedW : OrderConfirmedEvent := { order_id := 7, timestamp := 9 }

theorem projection_idempotence_spec_witness :
    (OrderSummaryProjection.handle_order_confirmed
        (OrderSummaryProjection.handle_order_confirmed [(7, dbRowW)]
          evtConfirmedW) evtConfirmedW =
      OrderSummaryProjection.handle_order_confirmed [(7, dbRowW)]
        evtConfirmedW) ∧
    (OrderSummaryProjection.handle_order_created [(7, dbRowW)] evtCreatedW =
      Except.error DbError.duplicateKey) :=
  ⟨projection_idempotence_spec.1 [(7, dbRowW)] evtConfirmedW,
   projection_idempotence_spec.2 [] [(7, dbRowW)] evtCreatedW (by decide)⟩

/-- Embeds `OrderSummaryDTO` returned by the query service. -/
structure OrderSummaryDTO where
  id : Nat
  customer_name : String
  total_amount : Money
  status : String
  created_at : Nat
deriving DecidableEq, Repr

/-- Embeds `OrderQueryService.get_order_summary`: the SELECT joins `order_summary`
with `customers`; with no matching row the function returns `None`. -/
def OrderQueryService.get_order_summary (db : ReadDb)
    (customers : List (Nat × String)) (order_id : Nat) :
    Option OrderSummaryDTO :=
  match db.lookup order_id with
  | none => none
  | some r =>
      match customers.lookup r.customer_id with
      | none => none
      | some cname =>
          some { id := order_id
                 customer_name := cname
                 total_amount := { amount := r.total_amount
                                   currency := r.currency }
                 status := r.status
                 created_at := r.created_at }

/-- Embeds `PostgresOrderRepository.find_by_id`: selects by id and returns `None`
when no row exists; `_to_entity` is the identity in this embedding (the
table stores the order entities directly). -/
def PostgresOrderRepository.find_by_id (table : List (Nat × Order))
    (id : Nat) : Option Order :=
  match table.lookup id with
  | none => none
  | some o => some o

/-- Claim C8: when no row exists for an id, the query service and the
repository lookup both return absence (`none`) as an ordinary value rather
than raising an error. -/
theorem notfound_is_none :
    (∀ (db : ReadDb) (customers : List (Nat × String)) (order_id : Nat),
      db.lookup order_id = none →
      OrderQueryService.get_order_summary db customers order_id = none) ∧
    (∀ (table : List (Nat × Order)) (id : Nat),
      table.lookup id = none →
      PostgresOrderRepository.find_by_id table id = none) := by
  constructor
  · intro db customers order_id h
    simp [OrderQueryService.get_order_summary, h]
  · intro table id h
    simp [PostgresOrderRepository.find_by_id, h]

theorem notfound_is_none_witness :
    OrderQueryService.get_order_summary [] [] 7 = none ∧
    PostgresOrderRepository.find_by_id [] 7 = none :=
  ⟨notfound_is_none.1 [] [] 7 rfl, notfound_is_none.2 [] 7 rfl⟩

/- ===== cqrs_pattern_example.py: command handler ===== -/

/-- Domain event recorded on an aggregate. -/
inductive DomainEvent where
  | orderCreated (order_id customer_id : Nat) (total_amount : Money)
deriving DecidableEq, Repr

/-- Modelled from the spec: the `AggregateRoot` base class holding
`domain_events` is not in the repository sources; per spec §4.2 a freshly
created order carries one `OrderCreated` event. -/
def Order.domain_events (o : Order) : List DomainEvent :=
  [DomainEvent.orderCreated o.id o.customer_id o.total_amount]

/-- Embeds `OrderItemDTO` carried by `CreateOrderCommand`. -/
structure OrderItemDTO where
  product_id : Nat
  quantity : Int
  unit_price : Money
deriving DecidableEq, Repr

/-- Embeds `CreateOrderCommand` (cqrs_pattern_example.py). -/
structure CreateOrderCommand where
  customer_id : Nat
  items : List OrderItemDTO
deriving DecidableEq, Repr

/-- The stores the command handler can touch: the order repository it saves
to, the event store it appends to, and the read model (which, per the
sources, it never writes). -/
structure HandlerState where
  repo : List Order
  event_store : List DomainEvent
  readModel : ReadDb
deriving DecidableEq, Repr

/-- Embeds `OrderCommandHandler.handle`: builds the order via `Order.create`
(the generated uuid4 is passed in as `newId`), saves it to the repository,
then appends each of `order.domain_events` to the event store and returns
`order.id`. Exceptions from `Order.create` propagate; there is no retry
loop and no expected-version argument to the append. -/
def OrderCommandHandler.handle (newId : Nat) (command : CreateOrderCommand)
    (s : HandlerState) : Except OrderError (Nat × HandlerState) :=
  match Order.create newId command.customer_id
      (command.items.map fun d =>
        { product_id := d.product_id
          quantity := d.quantity
          unit_price := d.unit_price }) with
  | Except.error e => Except.error e
  | Except.ok order =>
      Except.ok (order.id,
        { repo := s.repo ++ [order]
          event_store := s.event_store ++ order.domain_events
          readModel := s.readModel })

/-- Conversion applied by the handler's list comprehension. -/
def dtoToItem (d : OrderItemDTO) : OrderItem :=
  { product_id := d.product_id
    quantity := d.quantity
    unit_price := d.unit_price }

/-- The order the handler builds for a given command. -/
def handledOrder (newId : Nat) (command : CreateOrderCommand) : Order :=
  { id := newId
    customer_id := command.customer_id
    status := OrderStatus.created
    items := command.items.map dtoToItem
    total_amount := { amount := sumAmount (command.items.map dtoToItem)
                      currency := currJPY } }

theorem handle_eval (newId : Nat) (command : CreateOrderCommand)
    (s : HandlerState) :
    OrderCommandHandler.handle newId command s =
      Except.ok (newId,
        { repo := s.repo ++ [handledOrder newId command]
          event_store := s.event_store ++
            (handledOrder newId command).domain_events
          readModel := s.readModel }) := by
  rw [OrderCommandHandler.handle, create_eval]
  rfl

def cmdW : CreateOrderCommand :=
  { customer_id := 3
    items := [ { product_id := 1, quantity := 2
                 unit_price := { amount := 10, currency := currJPY } } ] }

def evPriorW : DomainEvent :=
  DomainEvent.orderCreated 9 9 { amount := 1, currency := currJPY }

def statePriorW : HandlerState :=
  { repo := [], event_store := [evPriorW], readModel := [] }

/-- Claim C5 counterexample: against a state whose event store already
holds another writer's event — the situation in which the spec demands a
ConcurrencyConflict, a retry cycle and final surfacing — the handler
succeeds silently in a single pass and appends unconditionally (the store
grows from one event to two); no conflict is ever detected, retried or
surfaced. -/
theorem handler_no_retry_cex :
    (OrderCommandHandler.handle 5 cmdW statePriorW).toOption.map
        (fun p => (p.1, p.2.event_store.length)) = some (5, 2) := by decide

/-- Claim C5 (amended): the Command Handler has no retry loop and no
concurrency handling: for every command and every state of the stores it
performs a single create–save–append pass that always succeeds, so a
ConcurrencyConflict can never arise, be retried, or be surfaced. -/
theorem handle_single_pass (newId : Nat) (command : CreateOrderCommand)
    (s : HandlerState) :
    OrderCommandHandler.handle newId command s =
      Except.ok (newId,
        { repo := s.repo ++ [handledOrder newId command]
          event_store := s.event_store ++
            (handledOrder newId command).domain_events
          readModel := s.readModel }) :=
  handle_eval newId command s

def emptyHS : HandlerState := { repo := [], event_store := [], readModel := [] }

/-- Claim C7 counterexample: handling a command writes the repository as
well — starting from empty stores the repository gains a row — so the
append to the event store is not the handler's only side effect. -/
theorem handler_writes_repo_cex :
    emptyHS.repo.length = 0 ∧
    (OrderCommandHandler.handle 5 cmdW emptyHS).toOption.map
        (fun p => p.2.repo.length) = some 1 := by decide

/-- Claim C7 (amended): handling a command has exactly two kinds of writes —
it saves the order to the repository and appends the order's domain events
to the event store — and performs no write to the read model. -/
theorem handle_effects (newId : Nat) (command : CreateOrderCommand)
    (s : HandlerState) :
    ∃ p : Nat × HandlerState,
      OrderCommandHandler.handle newId command s = Except.ok p ∧
      p.2.readModel = s.readModel ∧
      p.2.event_store = s.event_store ++
        (handledOrder newId command).domain_events ∧
      p.2.repo = s.repo ++ [handledOrder newId command] ∧
      p.2.repo ≠ s.repo := by
  refine ⟨_, handle_eval newId command s, rfl, rfl, rfl, ?_⟩
  intro h
  have := congrArg List.length h
  simp at this

/- ===== hexagonal_architecture_example.py ===== -/

/-- Embeds `PaymentResult` returned by the payment gateway port. -/
structure PaymentResult where
  success : Bool
  transaction_id : Option Nat
  error_message : Option String
deriving DecidableEq, Repr

def confirmErrMsg : String := "InvariantViolation"

/-- Modelled from the spec: `Order.confirm` is called by
`OrderService.process_order` but is absent from the repository sources;
per spec §4.2 it fails with InvariantViolation if status ≠ Created or no
items, and otherwise sets status = Confirmed. -/
def Order.confirm (o : Order) : Except OrderError Order :=
  if o.status ≠ OrderStatus.created then
    Except.error (OrderError.orderError confirmErrMsg)
  else if o.items.isEmpty then
    Except.error (OrderError.orderError confirmErrMsg)
  else
    Except.ok { o with status := OrderStatus.confirmed }

/-- Errors that can escape `OrderService.process_order`. -/
inductive ProcessOrderError where
  | paymentError (msg : Option String)
  | confirmError (e : OrderError)
deriving DecidableEq, Repr

/-- The adapters' visible state: orders saved through the repository port
and order ids sent through the notification port. -/
structure HexWorld where
  saved : List Order
  notified : List Nat
deriving DecidableEq, Repr

/-- Embeds `OrderService.process_order`: processes payment first; if the gateway
reports failure it raises PaymentError with the gateway's message; only on
success does it confirm the order, save it and send the notification. -/
def OrderService.process_order (pay : Nat → Money → PaymentResult)
    (w : HexWorld) (order : Order) : Except ProcessOrderError HexWorld :=
  let payment_result := pay order.id order.total_amount
  if payment_result.success = false then
    Except.error (ProcessOrderError.paymentError payment_result.error_message)
  else
    match order.confirm with
    | Except.error e => Except.error (ProcessOrderError.confirmError e)
    | Except.ok confirmed =>
        Except.ok { saved := w.saved ++ [confirmed]
                    notified := w.notified ++ [confirmed.id] }

/-- Claim C9: when the payment gateway reports failure,
`process_order` stops with exactly the PaymentError carrying the gateway's
message — the order is never confirmed, nothing is saved through the
repository port and no notification is sent (the world value is dropped
unchanged with the error). -/
theorem process_order_payment_failure (pay : Nat → Money → PaymentResult)
    (w : HexWorld) (order : Order)
    (h : (pay order.id order.total_amount).success = false) :
    OrderService.process_order pay w order =
      Except.error (ProcessOrderError.paymentError
        (pay order.id order.total_amount).error_message) := by
  simp [OrderService.process_order, h]

def declinedMsg : String := "card declined"

def payFailW : Nat → Money → PaymentResult := fun _ _ =>
  { success := false, transaction_id := none
    error_message := some declinedMsg }

theorem process_order_payment_failure_witness :
    (payFailW orderW.id orderW.total_amount).success = false ∧
    OrderService.process_order payFailW { saved := [], notified := [] }
        orderW =
      Except.error (ProcessOrderError.paymentError
        (payFailW orderW.id orderW.total_amount).error_message) :=
  ⟨rfl, process_order_payment_failure payFailW
    { saved := [], notified := [] } orderW rfl⟩

/- ===== Event Store (spec §4.3; implementation absent from src) ===== -/

/-- An event as persisted by the Event Store (spec §3). -/
structure StoredEvent where
  aggregateId : Nat
  sequenceNumber : Nat
  payload : String
deriving DecidableEq, Repr

inductive AppendError where
  | concurrencyConflict
deriving DecidableEq, Repr

/-- Per-aggregate streams of the Event Store. -/
abbrev EventStoreState : Type := Nat → List StoredEvent

/-- Payloads numbered with consecutive sequence numbers starting at `n`. -/
def numberFrom (aggregateId n : Nat) : List String → List StoredEvent
  | [] => []
  | p :: ps =>
      { aggregateId := aggregateId, sequenceNumber := n, payload := p } ::
        numberFrom aggregateId (n + 1) ps

/-- Modelled from the spec: the Event Store implementation is absent from
the repository sources (only the call `event_store.append(event)` in
`OrderCommandHandler.handle` exists). Per spec §4.3,
`append(aggregateId, expectedVersion, newEvents)` atomically appends the
new events with consecutive sequence numbers starting at
`expectedVersion + 1` iff the stream's current length equals
`expectedVersion`, and otherwise fails with ConcurrencyConflict appending
nothing. -/
def EventStore.append (store : EventStoreState)
    (aggregateId expectedVersion : Nat) (newEvents : List String) :
    Except AppendError EventStoreState :=
  if (store aggregateId).length = expectedVersion then
    Except.ok (fun j =>
      if j = aggregateId then
        store aggregateId ++
          numberFrom aggregateId (expectedVersion + 1) newEvents
      else store j)
  else
    Except.error AppendError.concurrencyConflict

/-- Modelled from the spec: `loadStream` returns the stream of one
aggregate, the empty sequence when the aggregate is unknown. -/
def EventStore.loadStream (store : EventStoreState) (aggregateId : Nat) :
    List StoredEvent :=
  store aggregateId

theorem numberFrom_getElem (a : Nat) :
    ∀ (ps : List String) (n k : Nat),
      (numberFrom a n ps)[k]? = (ps[k]?).map fun p =>
        { aggregateId := a, sequenceNumber := n + k, payload := p }
  | [], n, k => by simp [numberFrom]
  | p :: ps, n, 0 => by simp [numberFrom]
  | p :: ps, n, k + 1 => by
      simp only [numberFrom, List.getElem?_cons_succ]
      rw [numberFrom_getElem a ps (n + 1) k]
      have h : n + 1 + k = n + (k + 1) := by omega
      rw [h]

/-- Claim C1: `append` succeeds iff the stream's current length equals
`expectedVersion`; on success the stream's prefix is unchanged and the new
events sit at positions `expectedVersion, expectedVersion + 1, …` with
consecutive sequence numbers `k + 1` at each position `k` (i.e. starting at
`expectedVersion + 1`), other aggregates' streams are untouched; otherwise
it fails with ConcurrencyConflict and, no new state being produced, every
stream is left unchanged (all-or-nothing). -/
theorem event_store_append_spec (store : EventStoreState)
    (aggregateId expectedVersion : Nat) (newEvents : List String) :
    ((store aggregateId).length = expectedVersion →
      ∃ store2 : EventStoreState,
        EventStore.append store aggregateId expectedVersion newEvents =
          Except.ok store2 ∧
        (∀ k, (store2 aggregateId)[k]? =
          if k < expectedVersion then (store aggregateId)[k]?
          else (newEvents[k - expectedVersion]?).map fun p =>
            { aggregateId := aggregateId, sequenceNumber := k + 1
              payload := p }) ∧
        (∀ j, j ≠ aggregateId → store2 j = store j)) ∧
    ((store aggregateId).length ≠ expectedVersion →
      EventStore.append store aggregateId expectedVersion newEvents =
        Except.error AppendError.concurrencyConflict) := by
  constructor
  · intro h
    have happ : EventStore.append store aggregateId expectedVersion
        newEvents = Except.ok (fun j =>
          if j = aggregateId then
            store aggregateId ++
              numberFrom aggregateId (expectedVersion + 1) newEvents
          else store j) := by
      rw [EventStore.append, if_pos h]
    refine ⟨_, happ, ?_, ?_⟩
    · intro k
      show (if aggregateId = aggregateId then
          store aggregateId ++
            numberFrom aggregateId (expectedVersion + 1) newEvents
        else store aggregateId)[k]? = _
      rw [if_pos rfl]
      by_cases hk : k < expectedVersion
      · rw [if_pos hk, List.getElem?_append_left (by omega)]
      · rw [if_neg hk, List.getElem?_append_right (by omega),
          numberFrom_getElem, h]
        have heq : expectedVersion + 1 + (k - expectedVersion) = k + 1 := by
          omega
        rw [heq]
    · intro j hj
      show (if j = aggregateId then
          store aggregateId ++
            numberFrom aggregateId (expectedVersion + 1) newEvents
        else store j) = store j
      rw [if_neg hj]
  · intro h
    rw [EventStore.append, if_neg h]

def payA : String := "OrderCreated"

def payB : String := "OrderConfirmed"

theorem event_store_append_spec_witness :
    (∃ store2 : EventStoreState,
      EventStore.append (fun _ => []) 1 0 [payA, payB] =
        Except.ok store2 ∧
      (∀ k, (store2 1)[k]? =
        if k < 0 then (((fun _ => []) : EventStoreState) 1)[k]?
        else ([payA, payB][k - 0]?).map fun p =>
          { aggregateId := 1, sequenceNumber := k + 1, payload := p }) ∧
      (∀ j, j ≠ 1 → store2 j = ((fun _ => []) : EventStoreState) j)) ∧
    EventStore.append (fun _ => []) 1 5 [payA] =
      Except.error AppendError.concurrencyConflict :=
  ⟨(event_store_append_spec (fun _ => []) 1 0 [payA, payB]).1 rfl,
   (event_store_append_spec (fun _ => []) 1 5 [payA]).2 (by decide)⟩
